import Mathlib

/-!
Shallow embedding of the pedestrian-crossing simulator
(src/simulacion/llegadas.py, src/simulacion/semaforo_fijo.py,
src/simulacion/semaforo_adaptativo.py).

Modelling conventions:
  * virtual time is a rational number (the Python floats are exact reals here);
  * the pre-sampled values of random.expovariate are explicit input lists,
    consumed in draw order;
  * the cooperative simpy processes become explicit state-passing functions;
    each unbounded while-loop takes a fuel argument and returns none when the
    fuel runs out, so every definition is total and executable;
  * a simpy Store is a FIFO list; arrivals produced by the generator processes
    are a time-sorted list of future entities that is merged into the queue
    whenever the clock has passed their arrival time (in simpy the arrival
    event has already fired by then, so the entity is already in Store.items);
  * the traza field is a history variable recording the clock value after each
    suspension point (each yield env.timeout); it has no effect on behaviour
    and exists only to state clock-bound invariants.
-/

namespace CrucePeatonal

/-- Waiting entity: the Vehiculo / Peaton namedtuples of llegadas.py,
fields (id, tiempo_llegada). -/
structure Entity where
  id : Nat
  tiempo_llegada : ℚ
deriving DecidableEq

/-- Phase labels used for fase_actual and registrar_evento in both controllers. -/
inductive Fase where
  | VERDE_VEHICULAR
  | VERDE_VEHICULAR_INICIAL
  | VERDE_VEHICULAR_EXTENSION
  | AMARILLO_VEHICULAR
  | VERDE_PEATONAL
  | AMARILLO_PEATONAL
deriving DecidableEq

/-- Kinds of adaptive decision records (first argument of registrar_decision). -/
inductive TipoDecision where
  | EXTENSION
  | FIN_EXTENSION
  | SALTAR_FASE_PEATONAL
deriving DecidableEq

/-- Motives attached to adaptive decisions and to the pedestrian-phase
activation decision (debe_activar_fase_peatonal). -/
inductive Motivo where
  | PRIORIDAD_PEATONAL
  | COLA_VEHICULAR_BAJA
  | MAXIMO_ALCANZADO
  | ALTA_DEMANDA_VEHICULAR
  | COLA_PEATONAL_ALTA
  | ESPERA_EXCESIVA
  | HAY_PEATONES
  | SIN_PEATONES
deriving DecidableEq

/-- Service record appended to registros[servicios_vehiculos] /
registros[servicios_peatones].  Python field names: id, tiempo_llegada,
tiempo_inicio_servicio, tiempo_fin_servicio, tiempo_espera, tiempo_servicio,
ciclo (the two names containing inicio/servicio are shortened to t_ini_serv,
t_fin_serv, t_serv). -/
structure ServRec where
  id : Nat
  tiempo_llegada : ℚ
  t_ini_serv : ℚ
  t_fin_serv : ℚ
  tiempo_espera : ℚ
  t_serv : ℚ
  ciclo : Nat
deriving DecidableEq

/-- Phase-change record appended to registros[eventos_semaforo] by
registrar_evento.  The optional info_adicional payload (a diagnostic dict of
numbers) is not modelled; no claim depends on it. -/
structure EventoSem where
  tiempo : ℚ
  fase : Fase
  duracion : ℚ
  ciclo : Nat
  cola_v : Nat
  cola_p : Nat
deriving DecidableEq

/-- Queue snapshot appended to registros[estado_colas] by registrar_estado_cola. -/
structure EstadoCola where
  tiempo : ℚ
  cola_v : Nat
  cola_p : Nat
  fase : Fase
deriving DecidableEq

/-- Adaptive decision record appended to registros[decisiones_adaptativas] by
registrar_decision.  The valor payload (a diagnostic dict of numbers) is not
modelled; no claim depends on it. -/
structure DecisionAdap where
  tiempo : ℚ
  ciclo : Nat
  tipo : TipoDecision
  motivo : Motivo
  cola_v : Nat
  cola_p : Nat
deriving DecidableEq

/-- Entities of the future-arrival stream whose arrival time has already been
reached: by now their simpy put event has fired, so they sit in Store.items. -/
def llegadasHasta (clock : ℚ) : List Entity → List Entity
  | [] => []
  | e :: es => if e.tiempo_llegada ≤ clock then e :: llegadasHasta clock es else []

/-- Entities of the future-arrival stream that have not yet arrived. -/
def llegadasDesp (clock : ℚ) : List Entity → List Entity
  | [] => []
  | e :: es => if e.tiempo_llegada ≤ clock then llegadasDesp clock es else e :: es

/-- Observable contents of a simpy Store at a given clock: the queue already
materialised plus the arrivals whose time has been reached. -/
def colaObs (clock : ℚ) (cola futuras : List Entity) : List Entity :=
  cola ++ llegadasHasta clock futuras

/-- State threaded through one invocation of the shared service loop
(atender_vehiculos / atender_peatones). -/
structure AtState where
  clock : ℚ
  cola : List Entity
  futuras : List Entity
  draws : List ℚ
  atendidos : Nat
  recs : List ServRec
  traza : List ℚ
deriving DecidableEq

/-- Body of the while-loop of atender_vehiculos / atender_peatones
(semaforo_fijo.py lines 84-132 and 134-182; semaforo_adaptativo.py lines
122-159 and 161-198 are the same routine verbatim apart from the queue, the
rate and the record list it uses, so it is embedded once).

Per iteration, while env.now < tiempo_fin:
  * empty queue: yield timeout(min(1.0, tiempo_fin - env.now)) and re-check;
  * otherwise pop the head, note tiempo_espera = now - llegada, consume the
    next pre-sampled draw of random.expovariate;
  * if the draw exceeds the remaining time: put the entity back (simpy Store
    appends at the tail), yield timeout(remaining) and break;
  * else yield timeout(draw), count it served, and if now >= warmup append the
    service record (tiempo_inicio_servicio = now - draw, i.e. the clock at the
    pop). -/
def atenderLoop (warmup : ℚ) (ciclo : Nat) (t_fin : ℚ) : Nat → AtState → Option AtState
  | 0, _ => none
  | fuel + 1, st =>
    if st.clock < t_fin then
      match st.cola ++ llegadasHasta st.clock st.futuras, st.draws with
      | [], _ =>
        atenderLoop warmup ciclo t_fin fuel
          { clock := st.clock + min 1 (t_fin - st.clock)
            cola := []
            futuras := llegadasDesp st.clock st.futuras
            draws := st.draws
            atendidos := st.atendidos
            recs := st.recs
            traza := st.traza ++ [st.clock + min 1 (t_fin - st.clock)] }
      | _ :: _, [] => none
      | v :: resto, t_serv :: ds =>
        if t_serv > t_fin - st.clock then
          some { clock := t_fin
                 cola := resto ++ [v]
                 futuras := llegadasDesp st.clock st.futuras
                 draws := ds
                 atendidos := st.atendidos
                 recs := st.recs
                 traza := st.traza ++ [t_fin] }
        else
          atenderLoop warmup ciclo t_fin fuel
            { clock := st.clock + t_serv
              cola := resto
              futuras := llegadasDesp st.clock st.futuras
              draws := ds
              atendidos := st.atendidos + 1
              recs :=
                if warmup ≤ st.clock + t_serv then
                  st.recs ++ [{ id := v.id
                                tiempo_llegada := v.tiempo_llegada
                                t_ini_serv := st.clock
                                t_fin_serv := st.clock + t_serv
                                tiempo_espera := st.clock - v.tiempo_llegada
                                t_serv := t_serv
                                ciclo := ciclo }]
                else st.recs
              traza := st.traza ++ [st.clock + t_serv] }
    else some st

/-- Whole-simulation state shared by both controllers: clock, the two queues
with their future arrivals and pre-sampled service draws, the cycle counter,
fase_actual, and the record lists of the registros dict (decisiones is used
only by the adaptive controller; SemaforoFijo never touches it). -/
structure SimState where
  clock : ℚ
  colaV : List Entity
  futV : List Entity
  drawsV : List ℚ
  atendidosV : Nat
  recsV : List ServRec
  colaP : List Entity
  futP : List Entity
  drawsP : List ℚ
  atendidosP : Nat
  recsP : List ServRec
  ciclo : Nat
  fase_actual : Fase
  eventos : List EventoSem
  estado_colas : List EstadoCola
  decisiones : List DecisionAdap
  traza : List ℚ
deriving DecidableEq

/-- Vehicle-class view of the state, as the service loop sees it. -/
def SimState.vistaV (st : SimState) : AtState :=
  { clock := st.clock, cola := st.colaV, futuras := st.futV, draws := st.drawsV
    atendidos := st.atendidosV, recs := st.recsV, traza := st.traza }

/-- Write the vehicle-class view back into the simulation state. -/
def SimState.volcarV (st : SimState) (a : AtState) : SimState :=
  { st with clock := a.clock, colaV := a.cola, futV := a.futuras, drawsV := a.draws
            atendidosV := a.atendidos, recsV := a.recs, traza := a.traza }

/-- Pedestrian-class view of the state, as the service loop sees it. -/
def SimState.vistaP (st : SimState) : AtState :=
  { clock := st.clock, cola := st.colaP, futuras := st.futP, draws := st.drawsP
    atendidos := st.atendidosP, recs := st.recsP, traza := st.traza }

/-- Write the pedestrian-class view back into the simulation state. -/
def SimState.volcarP (st : SimState) (a : AtState) : SimState :=
  { st with clock := a.clock, colaP := a.cola, futP := a.futuras, drawsP := a.draws
            atendidosP := a.atendidos, recsP := a.recs, traza := a.traza }

/-- atender_vehiculos(duracion): run the service loop on the vehicle queue
from tiempo_inicio = env.now until tiempo_fin = tiempo_inicio + duracion. -/
def atender_vehiculos (warmup duracion : ℚ) (fuel : Nat) (st : SimState) : Option SimState :=
  (atenderLoop warmup st.ciclo (st.clock + duracion) fuel st.vistaV).map st.volcarV

/-- atender_peatones(duracion): run the service loop on the pedestrian queue. -/
def atender_peatones (warmup duracion : ℚ) (fuel : Nat) (st : SimState) : Option SimState :=
  (atenderLoop warmup st.ciclo (st.clock + duracion) fuel st.vistaP).map st.volcarP

/-- yield env.timeout(d): the only primitive that advances the clock. -/
def avanzar (d : ℚ) (st : SimState) : SimState :=
  { st with clock := st.clock + d, traza := st.traza ++ [st.clock + d] }

/-- registrar_evento: append a phase-change record, suppressed while
env.now < warmup_time.  Queue lengths are len(Store.items) at the current
clock. -/
def registrar_evento (warmup : ℚ) (st : SimState) (fase : Fase) (duracion : ℚ) : SimState :=
  if warmup ≤ st.clock then
    { st with eventos := st.eventos ++
        [{ tiempo := st.clock, fase := fase, duracion := duracion, ciclo := st.ciclo
           cola_v := (colaObs st.clock st.colaV st.futV).length
           cola_p := (colaObs st.clock st.colaP st.futP).length }] }
  else st

/-- registrar_estado_cola: append a queue snapshot (current fase_actual),
suppressed while env.now < warmup_time. -/
def registrar_estado_cola (warmup : ℚ) (st : SimState) : SimState :=
  if warmup ≤ st.clock then
    { st with estado_colas := st.estado_colas ++
        [{ tiempo := st.clock
           cola_v := (colaObs st.clock st.colaV st.futV).length
           cola_p := (colaObs st.clock st.colaP st.futP).length
           fase := st.fase_actual }] }
  else st

/-- registrar_decision: append an adaptive decision record, suppressed while
env.now < warmup_time. -/
def registrar_decision (warmup : ℚ) (st : SimState) (tipo : TipoDecision) (motivo : Motivo) :
    SimState :=
  if warmup ≤ st.clock then
    { st with decisiones := st.decisiones ++
        [{ tiempo := st.clock, ciclo := st.ciclo, tipo := tipo, motivo := motivo
           cola_v := (colaObs st.clock st.colaV st.futV).length
           cola_p := (colaObs st.clock st.colaP st.futP).length }] }
  else st

/-- obtener_espera_maxima_peatonal: 0 for an empty queue, else the maximum of
env.now - p.tiempo_llegada over the queued pedestrians. -/
def obtener_espera_maxima_peatonal (clock : ℚ) (colaP : List Entity) : ℚ :=
  match colaP with
  | [] => 0
  | p :: ps => (ps.map (fun q => clock - q.tiempo_llegada)).foldl max (clock - p.tiempo_llegada)

/-- Extension loop of fase_verde_vehicular_adaptativa (semaforo_adaptativo.py
lines 212-259): while tiempo_verde_total < g_max, read the current vehicle
queue length and the maximum pedestrian wait, then take the first branch that
applies, in source order:
  1. espera_max_p > w_max: FIN_EXTENSION / PRIORIDAD_PEATONAL, break;
  2. cola_actual_v < t_v: FIN_EXTENSION / COLA_VEHICULAR_BAJA, break;
  3. tiempo_verde_total + b > g_max: FIN_EXTENSION / MAXIMO_ALCANZADO, break;
  4. otherwise extend: add b, record the EXTENSION decision and the
     VERDE_VEHICULAR_EXTENSION event, serve vehicles for b more seconds. -/
def extensionLoop (g_max b_extension w_max t_v warmup : ℚ) (fuelA : Nat) :
    Nat → ℚ → Nat → SimState → Option (ℚ × SimState)
  | 0, _, _, _ => none
  | fuel + 1, tiempo_verde_total, extensiones, st =>
    if tiempo_verde_total < g_max then
      let cola_actual_v : ℚ := (colaObs st.clock st.colaV st.futV).length
      let espera_max_p := obtener_espera_maxima_peatonal st.clock
        (colaObs st.clock st.colaP st.futP)
      if espera_max_p > w_max then
        some (tiempo_verde_total,
          registrar_decision warmup st .FIN_EXTENSION .PRIORIDAD_PEATONAL)
      else if cola_actual_v < t_v then
        some (tiempo_verde_total,
          registrar_decision warmup st .FIN_EXTENSION .COLA_VEHICULAR_BAJA)
      else if tiempo_verde_total + b_extension > g_max then
        some (tiempo_verde_total,
          registrar_decision warmup st .FIN_EXTENSION .MAXIMO_ALCANZADO)
      else
        let st1 := registrar_decision warmup st .EXTENSION .ALTA_DEMANDA_VEHICULAR
        let st2 := registrar_evento warmup st1 .VERDE_VEHICULAR_EXTENSION b_extension
        (atender_vehiculos warmup b_extension fuelA st2).bind
          (fun st3 => extensionLoop g_max b_extension w_max t_v warmup fuelA fuel
            (tiempo_verde_total + b_extension) (extensiones + 1) st3)
    else some (tiempo_verde_total, st)

/-- fase_verde_vehicular_adaptativa: record the VERDE_VEHICULAR_INICIAL event,
serve vehicles for g_min, then run the extension loop starting from
tiempo_verde_total = g_min; returns tiempo_verde_total. -/
def fase_verde_vehicular_adaptativa (g_min g_max b_extension w_max t_v warmup : ℚ)
    (fuelA fuelL : Nat) (st : SimState) : Option (ℚ × SimState) :=
  let st1 := registrar_evento warmup st .VERDE_VEHICULAR_INICIAL g_min
  (atender_vehiculos warmup g_min fuelA st1).bind
    (fun st2 => extensionLoop g_max b_extension w_max t_v warmup fuelA fuelL g_min 0 st2)

/-- debe_activar_fase_peatonal: first criterion that applies, in source order:
queue length >= t_p, any wait > w_max, queue non-empty; otherwise skip. -/
def debe_activar_fase_peatonal (t_p w_max clock : ℚ) (colaP : List Entity) :
    Bool × Motivo :=
  let cola_p : ℚ := colaP.length
  let espera_max_p := obtener_espera_maxima_peatonal clock colaP
  if cola_p ≥ t_p then (true, .COLA_PEATONAL_ALTA)
  else if espera_max_p > w_max then (true, .ESPERA_EXCESIVA)
  else if cola_p > 0 then (true, .HAY_PEATONES)
  else (false, .SIN_PEATONES)

/-- Pedestrian part of one adaptive cycle (controlador, semaforo_adaptativo.py
lines 309-335): decide once; if activated run VERDE_PEATONAL (event + snapshot
+ service loop) followed by AMARILLO_PEATONAL (event + timeout); else append
only the SALTAR_FASE_PEATONAL decision record. -/
def faseControlPeatonal (g_p_fijo amarillo t_p w_max warmup : ℚ) (fuel : Nat)
    (st : SimState) : Option SimState :=
  let colaPobs := colaObs st.clock st.colaP st.futP
  let d := debe_activar_fase_peatonal t_p w_max st.clock colaPobs
  if d.1 then
    let st1 := { st with fase_actual := .VERDE_PEATONAL }
    let st2 := registrar_evento warmup st1 .VERDE_PEATONAL g_p_fijo
    let st3 := registrar_estado_cola warmup st2
    (atender_peatones warmup g_p_fijo fuel st3).map
      (fun st4 =>
        let st5 := { st4 with fase_actual := .AMARILLO_PEATONAL }
        let st6 := registrar_evento warmup st5 .AMARILLO_PEATONAL amarillo
        avanzar amarillo st6)
  else
    some (registrar_decision warmup st .SALTAR_FASE_PEATONAL d.2)

/-- One iteration of SemaforoFijo.controlador (semaforo_fijo.py lines 184-227):
VERDE_VEHICULAR (event + snapshot + service), AMARILLO_VEHICULAR (event +
timeout), VERDE_PEATONAL (event + snapshot + service), AMARILLO_PEATONAL
(event + timeout), final snapshot. -/
def controlador_ciclo_fijo (g_v_fijo g_p_fijo amarillo warmup : ℚ) (fuel : Nat)
    (st : SimState) : Option SimState :=
  let s1 := { st with ciclo := st.ciclo + 1, fase_actual := .VERDE_VEHICULAR }
  let s2 := registrar_evento warmup s1 .VERDE_VEHICULAR g_v_fijo
  let s3 := registrar_estado_cola warmup s2
  (atender_vehiculos warmup g_v_fijo fuel s3).bind (fun s4 =>
    let s5 := { s4 with fase_actual := .AMARILLO_VEHICULAR }
    let s6 := registrar_evento warmup s5 .AMARILLO_VEHICULAR amarillo
    let s7 := avanzar amarillo s6
    let s8 := { s7 with fase_actual := .VERDE_PEATONAL }
    let s9 := registrar_evento warmup s8 .VERDE_PEATONAL g_p_fijo
    let s10 := registrar_estado_cola warmup s9
    (atender_peatones warmup g_p_fijo fuel s10).map (fun s11 =>
      let s12 := { s11 with fase_actual := .AMARILLO_PEATONAL }
      let s13 := registrar_evento warmup s12 .AMARILLO_PEATONAL amarillo
      let s14 := avanzar amarillo s13
      registrar_estado_cola warmup s14))

/-- One iteration of SemaforoAdaptativo.controlador (semaforo_adaptativo.py
lines 284-338): snapshot, adaptive vehicle-green phase, AMARILLO_VEHICULAR,
then the pedestrian activation decision and, if activated, the pedestrian
phases; final snapshot. -/
def controlador_ciclo_adaptativo (g_min g_max g_p_fijo b_extension w_max t_v t_p
    amarillo warmup : ℚ) (fuelA fuelL : Nat) (st : SimState) : Option SimState :=
  let s1 := { st with ciclo := st.ciclo + 1, fase_actual := .VERDE_VEHICULAR }
  let s2 := registrar_estado_cola warmup s1
  (fase_verde_vehicular_adaptativa g_min g_max b_extension w_max t_v warmup
      fuelA fuelL s2).bind (fun r =>
    let s3 := { r.2 with fase_actual := .AMARILLO_VEHICULAR }
    let s4 := registrar_evento warmup s3 .AMARILLO_VEHICULAR amarillo
    let s5 := avanzar amarillo s4
    (faseControlPeatonal g_p_fijo amarillo t_p w_max warmup fuelA s5).map
      (fun s6 => registrar_estado_cola warmup s6))

/-- Object built by SemaforoAdaptativo.__init__ (semaforo_adaptativo.py lines
14-72): the constructor stores every parameter unchanged, sets
fase_actual = VERDE_VEHICULAR and ciclo_numero = 0, and performs no
validation whatsoever, so it is a total function of its arguments. -/
structure SemaforoAdaptativoObj where
  g_min : ℚ
  g_max : ℚ
  g_p_fijo : ℚ
  s_v : ℚ
  s_p : ℚ
  t_v : ℚ
  t_p : ℚ
  b_extension : ℚ
  w_max : ℚ
  amarillo : ℚ
  warmup_time : ℚ
  fase_actual : Fase
  ciclo_numero : Nat
deriving DecidableEq

/-- SemaforoAdaptativo.__init__ as a total constructor: no parameter check,
no clamping, no error path. -/
def semaforoAdaptativoInit (g_min g_max g_p_fijo s_v s_p t_v t_p b_extension
    w_max amarillo warmup_time : ℚ) : SemaforoAdaptativoObj :=
  { g_min := g_min, g_max := g_max, g_p_fijo := g_p_fijo, s_v := s_v, s_p := s_p
    t_v := t_v, t_p := t_p, b_extension := b_extension, w_max := w_max
    amarillo := amarillo, warmup_time := warmup_time
    fase_actual := .VERDE_VEHICULAR, ciclo_numero := 0 }

/-- Object built by GeneradorLlegadas.__init__ (llegadas.py lines 20-54):
stores the rates and warmup unchanged, zeroes the id counters, and performs
no validation. -/
structure GeneradorLlegadasObj where
  lambda_v : ℚ
  lambda_p : ℚ
  warmup_time : ℚ
  vehiculo_id : Nat
  peaton_id : Nat
deriving DecidableEq

/-- GeneradorLlegadas.__init__ as a total constructor: no parameter check,
no clamping, no error path. -/
def generadorLlegadasInit (lambda_v lambda_p warmup_time : ℚ) : GeneradorLlegadasObj :=
  { lambda_v := lambda_v, lambda_p := lambda_p, warmup_time := warmup_time
    vehiculo_id := 0, peaton_id := 0 }

/-- Modelled from the spec: the seeded global random generator.  The test
drivers call random.seed(semilla), after which every draw is a pure function
of the generator state; the Mersenne Twister implementation is library code
absent from the repository, so the generator is abstracted as a deterministic
state machine (a linear congruential step).  Only determinism and positivity
of the draws matter to the claims below, not the distribution. -/
def rngNext (s : Nat) : Nat := (1103515245 * s + 12345) % 2147483648

/-- Modelled from the spec: random.expovariate(rate) — a strictly positive
draw (for rate > 0) that is a deterministic function of the generator state,
together with the successor state. -/
def expoDraw (rate : ℚ) (s : Nat) : ℚ × Nat :=
  ((((s % 4096 : Nat) : ℚ) + 1) / (4096 * rate), rngNext s)

/-- generar_vehiculos / generar_peatones (llegadas.py lines 56-111): draw an
exponential inter-arrival time, advance, create the entity with a fresh
monotonic id and the current clock as tiempo_llegada.  The perpetual simpy
process is unrolled a fixed number of steps; entities beyond the horizon are
simply never ingested by the controller. -/
def generarLlegadas (rate : ℚ) : Nat → ℚ → Nat → Nat → List Entity × Nat
  | 0, _, _, s => ([], s)
  | n + 1, t, ultimoId, s =>
    let d := expoDraw rate s
    let e : Entity := { id := ultimoId + 1, tiempo_llegada := t + d.1 }
    let r := generarLlegadas rate n (t + d.1) (ultimoId + 1) d.2
    (e :: r.1, r.2)

/-- Pre-sample a list of service-duration draws from the generator. -/
def generarDraws (rate : ℚ) : Nat → Nat → List ℚ × Nat
  | 0, s => ([], s)
  | n + 1, s =>
    let d := expoDraw rate s
    let r := generarDraws rate n d.2
    (d.1 :: r.1, r.2)

/-- Arrival record {id, tiempo} appended to registros[llegadas_vehiculos] /
registros[llegadas_peatones]; emitted only when the arrival time has passed
warm-up.  The cola_longitud field (queue length right after the put) is a
function of the same deterministic state and is not modelled. -/
structure LlegadaRec where
  id : Nat
  tiempo : ℚ
deriving DecidableEq

/-- Warm-up-filtered arrival records of a generated arrival stream. -/
def registrosLlegadas (warmup : ℚ) (es : List Entity) : List LlegadaRec :=
  (es.filter (fun e => warmup ≤ e.tiempo_llegada)).map
    (fun e => { id := e.id, tiempo := e.tiempo_llegada })

/-- Iterate a controller cycle a fixed number of times (the while True of
controlador; the simulation horizon of env.run bounds the number of cycles). -/
def iterarCiclos (paso : SimState → Option SimState) : Nat → SimState → Option SimState
  | 0, st => some st
  | n + 1, st => (paso st).bind (iterarCiclos paso n)

/-- Full configuration of a run, covering both drivers
(test_semaforo_fijo.simular_semaforo_fijo and
test_semaforo_adaptativo.simular_semaforo_adaptativo). -/
structure Config where
  lambda_v : ℚ
  lambda_p : ℚ
  g_v : ℚ
  g_p : ℚ
  g_min : ℚ
  g_max : ℚ
  s_v : ℚ
  s_p : ℚ
  t_v : ℚ
  t_p : ℚ
  b : ℚ
  w_max : ℚ
  warmup : ℚ
  amarillo : ℚ
deriving DecidableEq

/-- Everything a run emits: the two arrival-record streams plus the final
simulation state carrying the service, phase-change, decision and snapshot
records. -/
structure SalidaSim where
  llegadasV : List LlegadaRec
  llegadasP : List LlegadaRec
  resultado : Option SimState
deriving DecidableEq

/-- Initial simulation state of a driver run: empty queues and record lists,
clock 0, the generated arrival streams and pre-sampled service draws. -/
def estadoInicial (llegV llegP : List Entity) (dV dP : List ℚ) : SimState :=
  { clock := 0, colaV := [], futV := llegV, drawsV := dV, atendidosV := 0, recsV := []
    colaP := [], futP := llegP, drawsP := dP, atendidosP := 0, recsP := []
    ciclo := 0, fase_actual := .VERDE_VEHICULAR, eventos := [], estado_colas := []
    decisiones := [], traza := [] }

/-- simular_semaforo_fijo (test_semaforo_fijo.py): seed the generator, build
the arrival streams and service draws from the single seeded generator state
(Python interleaves the very same draws in scheduler order; either way every
draw is a function of the seed alone), then run the fixed controller. -/
def simularSemaforoFijo (cfg : Config) (semilla : Nat) (nLleg nDraws ciclos fuel : Nat) :
    SalidaSim :=
  let gV := generarLlegadas cfg.lambda_v nLleg 0 0 semilla
  let gP := generarLlegadas cfg.lambda_p nLleg 0 0 gV.2
  let dV := generarDraws cfg.s_v nDraws gP.2
  let dP := generarDraws cfg.s_p nDraws dV.2
  { llegadasV := registrosLlegadas cfg.warmup gV.1
    llegadasP := registrosLlegadas cfg.warmup gP.1
    resultado := iterarCiclos
      (controlador_ciclo_fijo cfg.g_v cfg.g_p cfg.amarillo cfg.warmup fuel)
      ciclos (estadoInicial gV.1 gP.1 dV.1 dP.1) }

/-- simular_semaforo_adaptativo (test_semaforo_adaptativo.py): same seeding
discipline, running the adaptive controller. -/
def simularSemaforoAdaptativo (cfg : Config) (semilla : Nat)
    (nLleg nDraws ciclos fuelA fuelL : Nat) : SalidaSim :=
  let gV := generarLlegadas cfg.lambda_v nLleg 0 0 semilla
  let gP := generarLlegadas cfg.lambda_p nLleg 0 0 gV.2
  let dV := generarDraws cfg.s_v nDraws gP.2
  let dP := generarDraws cfg.s_p nDraws dV.2
  { llegadasV := registrosLlegadas cfg.warmup gV.1
    llegadasP := registrosLlegadas cfg.warmup gP.1
    resultado := iterarCiclos
      (controlador_ciclo_adaptativo cfg.g_min cfg.g_max cfg.g_p cfg.b cfg.w_max
        cfg.t_v cfg.t_p cfg.amarillo cfg.warmup fuelA fuelL)
      ciclos (estadoInicial gV.1 gP.1 dV.1 dP.1) }

end CrucePeatonal

namespace CrucePeatonal

/-- Concrete states used to instantiate the theorems below on closed inputs. -/
def stVacio : SimState := estadoInicial [] [] [] []

/-- Scenario-B state: five vehicles already queued, every pre-sampled service
draw larger than any phase block, no pedestrians. -/
def escenarioB : SimState :=
  { estadoInicial [] [] (List.replicate 9 1000) [] with
      colaV := [⟨1, 0⟩, ⟨2, 0⟩, ⟨3, 0⟩, ⟨4, 0⟩, ⟨5, 0⟩], ciclo := 1 }

/-- First service phase of the FCFS counterexample: two vehicles in arrival
order, the first draw overruns the phase. -/
def escenarioC4a : AtState :=
  { clock := 2, cola := [⟨1, 0⟩, ⟨2, 1⟩], futuras := [], draws := [100, 1, 1]
    atendidos := 0, recs := [], traza := [] }

/-- Second service phase of the FCFS counterexample: the queue as left by the
first phase (re-enqueued entity at the tail). -/
def escenarioC4b : AtState :=
  { clock := 6, cola := [⟨2, 1⟩, ⟨1, 0⟩], futuras := [], draws := [1, 1]
    atendidos := 0, recs := [], traza := [] }

/-- Arrival-sorted service phase used as witness for the amended FCFS claim. -/
def escenarioC4w : AtState :=
  { clock := 2, cola := [⟨1, 0⟩, ⟨2, 1⟩], futuras := [], draws := [1, 1]
    atendidos := 0, recs := [], traza := [] }

/-- Single-vehicle scenario used as witness for the service-loop clock claim. -/
def escenarioC10 : AtState :=
  { clock := 0, cola := [⟨1, 0⟩], futuras := [], draws := [1]
    atendidos := 0, recs := [], traza := [] }

/-- State at an extension-loop check with a pedestrian waiting far beyond
w_max, a short vehicle queue and the cap already close: every stop condition
holds at once. -/
def escenarioC6 : SimState :=
  { estadoInicial [] [] [] [] with clock := 100, colaP := [⟨1, 0⟩], ciclo := 1 }

/-- Empty-intersection state used as witness for the adaptive green bounds. -/
def escenarioC1 : SimState :=
  { estadoInicial [] [] [] [] with ciclo := 1 }

/-- State in which the Scenario-B run of fase_verde_vehicular_adaptativa
ends (checked below by evaluation): cumulative green 60, eight extension
decisions, no FIN_EXTENSION decision of any motive. -/
def escenarioBFinal : SimState :=
  { clock := 60
    colaV := [⟨5, 0⟩, ⟨1, 0⟩, ⟨2, 0⟩, ⟨3, 0⟩, ⟨4, 0⟩]
    futV := [], drawsV := [], atendidosV := 0, recsV := []
    colaP := [], futP := [], drawsP := [], atendidosP := 0, recsP := []
    ciclo := 1, fase_actual := .VERDE_VEHICULAR
    eventos :=
      { tiempo := 0, fase := .VERDE_VEHICULAR_INICIAL, duracion := 20, ciclo := 1
        cola_v := 5, cola_p := 0 } ::
      ([20, 25, 30, 35, 40, 45, 50, 55].map (fun t =>
        { tiempo := t, fase := .VERDE_VEHICULAR_EXTENSION, duracion := 5, ciclo := 1
          cola_v := 5, cola_p := 0 }))
    estado_colas := []
    decisiones :=
      [20, 25, 30, 35, 40, 45, 50, 55].map (fun t =>
        { tiempo := t, ciclo := 1, tipo := .EXTENSION, motivo := .ALTA_DEMANDA_VEHICULAR
          cola_v := 5, cola_p := 0 })
    traza := [20, 25, 30, 35, 40, 45, 50, 55, 60] }

/-- Default configuration of config.py, used to instantiate the determinism
claim. -/
def cfgBase : Config :=
  { lambda_v := 3/10, lambda_p := 1/10, g_v := 30, g_p := 15, g_min := 20
    g_max := 60, s_v := 1/2, s_p := 1, t_v := 5, t_p := 3, b := 5, w_max := 90
    warmup := 300, amarillo := 3 }

end CrucePeatonal

namespace CrucePeatonal

theorem llegadasHasta_append_desp (clock : ℚ) (l : List Entity) :
    llegadasHasta clock l ++ llegadasDesp clock l = l := by
  induction l with
  | nil => rfl
  | cons e es ih =>
    by_cases h : e.tiempo_llegada ≤ clock
    · simp [llegadasHasta, llegadasDesp, h, ih]
    · simp [llegadasHasta, llegadasDesp, h]

theorem atenderLoop_reloj (warmup t_fin : ℚ) (ciclo : Nat) :
    ∀ (fuel : Nat) (st r : AtState),
      atenderLoop warmup ciclo t_fin fuel st = some r → st.clock ≤ t_fin →
      r.clock = t_fin ∧ (∀ d ∈ r.draws, d ∈ st.draws) ∧
        (∀ c ∈ r.traza, c ∈ st.traza ∨ c ≤ t_fin) := by
  intro fuel
  induction fuel with
  | zero => intro st r h _; simp [atenderLoop] at h
  | succ n ih =>
    intro st r h hle
    simp only [atenderLoop] at h
    split at h
    · rename_i hlt
      split at h
      · rename_i hcola _
        have hmin : st.clock + min 1 (t_fin - st.clock) ≤ t_fin := by
          have h1 := min_le_right (1 : ℚ) (t_fin - st.clock)
          linarith
        obtain ⟨h1, h2, h3⟩ := ih _ _ h hmin
        refine ⟨h1, fun d hd => h2 d hd, fun c hc => ?_⟩
        rcases h3 c hc with hc1 | hc2
        · rcases List.mem_append.mp hc1 with hin | hin
          · exact Or.inl hin
          · simp only [List.mem_singleton] at hin
            exact Or.inr (hin ▸ hmin)
        · exact Or.inr hc2
      · exact absurd h (by simp)
      · rename_i v resto t_serv ds hcola hdraws
        split at h
        · rename_i hbig
          cases h
          refine ⟨rfl, fun d hd => hdraws ▸ List.mem_cons_of_mem _ hd, fun c hc => ?_⟩
          rcases List.mem_append.mp hc with hin | hin
          · exact Or.inl hin
          · simp only [List.mem_singleton] at hin
            exact Or.inr (le_of_eq hin)
        · rename_i hbig
          push_neg at hbig
          have hnext : st.clock + t_serv ≤ t_fin := by linarith
          obtain ⟨h1, h2, h3⟩ := ih _ _ h hnext
          refine ⟨h1, fun d hd => ?_, fun c hc => ?_⟩
          · have := h2 d hd
            simp only at this
            exact hdraws ▸ List.mem_cons_of_mem _ this
          · rcases h3 c hc with hc1 | hc2
            · rcases List.mem_append.mp hc1 with hin | hin
              · exact Or.inl hin
              · simp only [List.mem_singleton] at hin
                exact Or.inr (hin ▸ hnext)
            · exact Or.inr hc2
    · cases h
      exact ⟨le_antisymm hle (not_lt.mp (by assumption)), fun d hd => hd,
        fun c hc => Or.inl hc⟩

end CrucePeatonal


namespace CrucePeatonal

@[simp] theorem clock_registrar_evento (w : ℚ) (st : SimState) (f : Fase) (d : ℚ) :
    (registrar_evento w st f d).clock = st.clock := by
  unfold registrar_evento; split <;> rfl

@[simp] theorem clock_registrar_estado_cola (w : ℚ) (st : SimState) :
    (registrar_estado_cola w st).clock = st.clock := by
  unfold registrar_estado_cola; split <;> rfl

@[simp] theorem clock_registrar_decision (w : ℚ) (st : SimState) (t : TipoDecision)
    (m : Motivo) : (registrar_decision w st t m).clock = st.clock := by
  unfold registrar_decision; split <;> rfl

@[simp] theorem clock_avanzar (d : ℚ) (st : SimState) :
    (avanzar d st).clock = st.clock + d := rfl

@[simp] theorem fase_registrar_evento (w : ℚ) (st : SimState) (f : Fase) (d : ℚ) :
    (registrar_evento w st f d).fase_actual = st.fase_actual := by
  unfold registrar_evento; split <;> rfl

@[simp] theorem fase_registrar_estado_cola (w : ℚ) (st : SimState) :
    (registrar_estado_cola w st).fase_actual = st.fase_actual := by
  unfold registrar_estado_cola; split <;> rfl

@[simp] theorem fase_avanzar (d : ℚ) (st : SimState) :
    (avanzar d st).fase_actual = st.fase_actual := rfl

@[simp] theorem estado_colas_registrar_evento (w : ℚ) (st : SimState) (f : Fase) (d : ℚ) :
    (registrar_evento w st f d).estado_colas = st.estado_colas := by
  unfold registrar_evento; split <;> rfl

@[simp] theorem eventos_registrar_estado_cola (w : ℚ) (st : SimState) :
    (registrar_estado_cola w st).eventos = st.eventos := by
  unfold registrar_estado_cola; split <;> rfl

@[simp] theorem eventos_avanzar (d : ℚ) (st : SimState) :
    (avanzar d st).eventos = st.eventos := rfl

@[simp] theorem estado_colas_avanzar (d : ℚ) (st : SimState) :
    (avanzar d st).estado_colas = st.estado_colas := rfl

@[simp] theorem eventos_registrar_decision (w : ℚ) (st : SimState) (t : TipoDecision)
    (m : Motivo) : (registrar_decision w st t m).eventos = st.eventos := by
  unfold registrar_decision; split <;> rfl

@[simp] theorem decisiones_registrar_evento (w : ℚ) (st : SimState) (f : Fase) (d : ℚ) :
    (registrar_evento w st f d).decisiones = st.decisiones := by
  unfold registrar_evento; split <;> rfl

@[simp] theorem decisiones_registrar_estado_cola (w : ℚ) (st : SimState) :
    (registrar_estado_cola w st).decisiones = st.decisiones := by
  unfold registrar_estado_cola; split <;> rfl

theorem eventos_registrar_evento_de (w : ℚ) (st : SimState) (f : Fase) (d : ℚ)
    (h : w ≤ st.clock) :
    (registrar_evento w st f d).eventos = st.eventos ++
      [{ tiempo := st.clock, fase := f, duracion := d, ciclo := st.ciclo
         cola_v := (colaObs st.clock st.colaV st.futV).length
         cola_p := (colaObs st.clock st.colaP st.futP).length }] := by
  unfold registrar_evento; rw [if_pos h]

theorem estado_colas_registrar_estado_cola_de (w : ℚ) (st : SimState)
    (h : w ≤ st.clock) :
    (registrar_estado_cola w st).estado_colas = st.estado_colas ++
      [{ tiempo := st.clock
         cola_v := (colaObs st.clock st.colaV st.futV).length
         cola_p := (colaObs st.clock st.colaP st.futP).length
         fase := st.fase_actual }] := by
  unfold registrar_estado_cola; rw [if_pos h]

theorem decisiones_registrar_decision_de (w : ℚ) (st : SimState) (t : TipoDecision)
    (m : Motivo) (h : w ≤ st.clock) :
    (registrar_decision w st t m).decisiones = st.decisiones ++
      [{ tiempo := st.clock, ciclo := st.ciclo, tipo := t, motivo := m
         cola_v := (colaObs st.clock st.colaV st.futV).length
         cola_p := (colaObs st.clock st.colaP st.futP).length }] := by
  unfold registrar_decision; rw [if_pos h]

theorem atender_vehiculos_spec (w d : ℚ) (fuel : Nat) (st r : SimState)
    (h : atender_vehiculos w d fuel st = some r) (hd : 0 ≤ d) :
    r.clock = st.clock + d ∧ r.eventos = st.eventos ∧
    r.estado_colas = st.estado_colas ∧ r.decisiones = st.decisiones ∧
    r.ciclo = st.ciclo ∧ r.fase_actual = st.fase_actual ∧ r.drawsP = st.drawsP := by
  unfold atender_vehiculos at h
  rw [Option.map_eq_some'] at h
  obtain ⟨a, ha, rfl⟩ := h
  have hcl : (SimState.vistaV st).clock ≤ st.clock + d := by
    simp [SimState.vistaV]; linarith
  obtain ⟨h1, -, -⟩ := atenderLoop_reloj w (st.clock + d) st.ciclo fuel _ _ ha hcl
  exact ⟨h1, rfl, rfl, rfl, rfl, rfl, rfl⟩

theorem atender_peatones_spec (w d : ℚ) (fuel : Nat) (st r : SimState)
    (h : atender_peatones w d fuel st = some r) (hd : 0 ≤ d) :
    r.clock = st.clock + d ∧ r.eventos = st.eventos ∧
    r.estado_colas = st.estado_colas ∧ r.decisiones = st.decisiones ∧
    r.ciclo = st.ciclo ∧ r.fase_actual = st.fase_actual ∧ r.drawsV = st.drawsV := by
  unfold atender_peatones at h
  rw [Option.map_eq_some'] at h
  obtain ⟨a, ha, rfl⟩ := h
  have hcl : (SimState.vistaP st).clock ≤ st.clock + d := by
    simp [SimState.vistaP]; linarith
  obtain ⟨h1, -, -⟩ := atenderLoop_reloj w (st.clock + d) st.ciclo fuel _ _ ha hcl
  exact ⟨h1, rfl, rfl, rfl, rfl, rfl, rfl⟩

/-- C10: for any invocation of the shared service loop (atender_vehiculos /
atender_peatones, embedded once for both controllers by atenderLoop) with
non-negative duration d starting at clock t0, with every pre-sampled service
duration non-negative, if the routine returns then the virtual clock equals
exactly t0 + d on return, and the clock value after every suspension point of
the run (recorded in the traza history variable) never exceeds t0 + d. -/
theorem C10_reloj_exacto (warmup d : ℚ) (ciclo fuel : Nat) (st r : AtState)
    (h : atenderLoop warmup ciclo (st.clock + d) fuel st = some r)
    (hd : 0 ≤ d) (_hdraws : ∀ x ∈ st.draws, 0 ≤ x) (htraza : st.traza = []) :
    r.clock = st.clock + d ∧ ∀ c ∈ r.traza, c ≤ st.clock + d := by
  obtain ⟨h1, -, h3⟩ := atenderLoop_reloj warmup (st.clock + d) ciclo fuel st r h
    (by linarith)
  refine ⟨h1, fun c hc => ?_⟩
  rcases h3 c hc with hc1 | hc2
  · rw [htraza] at hc1; simp at hc1
  · exact hc2

/-- Witness for C10 at a concrete input: one vehicle served (draw 1), then an
empty-queue poll; the routine returns at exactly clock 0 + 2 and every
recorded clock value stays at or below 2. -/
theorem C10_reloj_exacto_testigo :
    (atenderLoop 0 1 (escenarioC10.clock + 2) 6 escenarioC10).elim False
      (fun r => r.clock = escenarioC10.clock + 2 ∧
        ∀ c ∈ r.traza, c ≤ escenarioC10.clock + 2) := by
  rcases hEq : atenderLoop 0 1 (escenarioC10.clock + 2) 6 escenarioC10 with _ | r
  · have hS : (atenderLoop 0 1 (escenarioC10.clock + 2) 6 escenarioC10).isSome = true := by
      with_unfolding_all rfl
    rw [hEq] at hS; simp at hS
  · simpa using C10_reloj_exacto 0 2 1 6 escenarioC10 r hEq (by norm_num)
      (by norm_num [escenarioC10]) rfl

/-- C2: one full cycle of SemaforoFijo.controlador advances the virtual clock
by exactly g_v + amarillo + g_p + amarillo, from any starting state, whatever
arrivals occur and whatever service durations are drawn — so the virtual time
between consecutive vehicle-green starts is the same constant in every cycle. -/
theorem C2_ciclo_fijo_constante (g_v g_p amarillo warmup : ℚ) (fuel : Nat)
    (st r : SimState) (h : controlador_ciclo_fijo g_v g_p amarillo warmup fuel st = some r)
    (hgv : 0 ≤ g_v) (hgp : 0 ≤ g_p) :
    r.clock = st.clock + (g_v + amarillo + g_p + amarillo) := by
  simp only [controlador_ciclo_fijo] at h
  rw [Option.bind_eq_some] at h
  obtain ⟨s4, h4, h⟩ := h
  rw [Option.map_eq_some'] at h
  obtain ⟨s11, h11, rfl⟩ := h
  have hc4 := (atender_vehiculos_spec _ _ _ _ _ h4 hgv).1
  have hc11 := (atender_peatones_spec _ _ _ _ _ h11 hgp).1
  simp only [clock_registrar_estado_cola, clock_registrar_evento, clock_avanzar] at hc4 hc11 ⊢
  rw [hc11, hc4]
  ring

set_option maxHeartbeats 1600000 in
/-- Witness for C2 at a concrete input: an empty intersection with
g_v = 1, g_p = 1, amarillo = 1; the cycle completes and the clock advances by
exactly 1 + 1 + 1 + 1 = 4. -/
theorem C2_ciclo_fijo_constante_testigo :
    (controlador_ciclo_fijo 1 1 1 0 4 stVacio).elim False
      (fun r => r.clock = stVacio.clock + (1 + 1 + 1 + 1)) := by
  rcases hEq : controlador_ciclo_fijo 1 1 1 0 4 stVacio with _ | r
  · have hS : (controlador_ciclo_fijo 1 1 1 0 4 stVacio).isSome = true := by
      with_unfolding_all rfl
    rw [hEq] at hS; simp at hS
  · simpa using C2_ciclo_fijo_constante 1 1 1 0 4 stVacio r hEq (by norm_num) (by norm_num)

end CrucePeatonal

namespace CrucePeatonal

set_option maxHeartbeats 1600000 in
/-- Counterexample to C9 on a concrete fixed-controller cycle (g_v = 1,
g_p = 1, amarillo = 1, warm-up 0, empty intersection): phase-change records
are emitted at the start of all four phases (times 0, 1, 2, 3) but queue
snapshots are emitted only at times 0, 2 and 4 — the amber phases starting at
times 1 and 3 get no snapshot at their start. -/
theorem C9_contraejemplo :
    ((controlador_ciclo_fijo 1 1 1 0 4 stVacio).map
       (fun s => (s.eventos.map (fun e => (e.tiempo, e.fase)),
                  s.estado_colas.map (fun q => q.tiempo)))) =
      some ([((0 : ℚ), Fase.VERDE_VEHICULAR), (1, Fase.AMARILLO_VEHICULAR),
             (2, Fase.VERDE_PEATONAL), (3, Fase.AMARILLO_PEATONAL)],
            [(0 : ℚ), 2, 4])
  ∧ ¬ ((1 : ℚ) ∈ [(0 : ℚ), 2, 4]) := by
  constructor
  · with_unfolding_all rfl
  · norm_num

/-- C9 (amended): in every completed fixed-controller cycle starting at or
after warm-up, a phase-change record is emitted at the start of each of the
four phases, but queue snapshots are emitted only at the start of the two
green phases and at the end of the cycle — not at the start of the amber
phases. -/
theorem C9_fases_registros_fijo (g_v g_p amarillo warmup : ℚ) (fuel : Nat)
    (st r : SimState)
    (h : controlador_ciclo_fijo g_v g_p amarillo warmup fuel st = some r)
    (hgv : 0 ≤ g_v) (hgp : 0 ≤ g_p) (hgy : 0 ≤ amarillo) (hw : warmup ≤ st.clock) :
    (r.eventos.drop st.eventos.length).map (fun e => (e.tiempo, e.fase, e.duracion)) =
      [(st.clock, Fase.VERDE_VEHICULAR, g_v),
       (st.clock + g_v, Fase.AMARILLO_VEHICULAR, amarillo),
       (st.clock + g_v + amarillo, Fase.VERDE_PEATONAL, g_p),
       (st.clock + g_v + amarillo + g_p, Fase.AMARILLO_PEATONAL, amarillo)]
  ∧ (r.estado_colas.drop st.estado_colas.length).map (fun s => (s.tiempo, s.fase)) =
      [(st.clock, Fase.VERDE_VEHICULAR),
       (st.clock + g_v + amarillo, Fase.VERDE_PEATONAL),
       (st.clock + g_v + amarillo + g_p + amarillo, Fase.AMARILLO_PEATONAL)] := by
  simp only [controlador_ciclo_fijo] at h
  rw [Option.bind_eq_some] at h
  obtain ⟨s4, h4, h⟩ := h
  rw [Option.map_eq_some'] at h
  obtain ⟨s11, h11, rfl⟩ := h
  obtain ⟨hck4, hev4, hsc4, -, -, hfa4, -⟩ := atender_vehiculos_spec _ _ _ _ _ h4 hgv
  obtain ⟨hck11, hev11, hsc11, -, -, hfa11, -⟩ := atender_peatones_spec _ _ _ _ _ h11 hgp
  simp only [clock_registrar_estado_cola, clock_registrar_evento, clock_avanzar] at hck4 hck11
  rw [hck4] at hck11
  have hw1 : warmup ≤ st.clock + g_v := by linarith
  have hw2 : warmup ≤ st.clock + g_v + amarillo := by linarith
  have hw3 : warmup ≤ st.clock + g_v + amarillo + g_p := by linarith
  have hw4 : warmup ≤ st.clock + g_v + amarillo + g_p + amarillo := by linarith
  constructor
  · simp only [eventos_registrar_estado_cola, eventos_avanzar,
      eventos_registrar_evento_de, clock_registrar_estado_cola,
      clock_registrar_evento, clock_avanzar, hck4, hck11, hw, hw1, hw2, hw3, hw4,
      hev4, hev11, hsc4, hsc11, fase_registrar_evento, fase_registrar_estado_cola,
      fase_avanzar, List.append_assoc, List.singleton_append, List.cons_append,
      List.nil_append]
    rw [List.drop_left]
    simp [hck4, hck11]
  · simp only [estado_colas_registrar_evento, estado_colas_avanzar,
      estado_colas_registrar_estado_cola_de, clock_registrar_estado_cola,
      clock_registrar_evento, clock_avanzar, hck4, hck11, hw, hw1, hw2, hw3, hw4,
      hev4, hev11, hsc4, hsc11, fase_registrar_evento, fase_registrar_estado_cola,
      fase_avanzar, List.append_assoc, List.singleton_append, List.cons_append,
      List.nil_append]
    rw [List.drop_left]
    simp [hck4, hck11, hfa4, hfa11]

end CrucePeatonal

namespace CrucePeatonal

set_option maxHeartbeats 1600000 in
/-- Witness for the amended C9 at a concrete input: the cycle of
C9_contraejemplo completes, with the four phase records and the three queue
snapshots at exactly the stated times. -/
theorem C9_fases_registros_fijo_testigo :
    (controlador_ciclo_fijo 1 1 1 0 4 stVacio).elim False
      (fun r =>
        (r.eventos.drop stVacio.eventos.length).map
            (fun e => (e.tiempo, e.fase, e.duracion)) =
          [(stVacio.clock, Fase.VERDE_VEHICULAR, 1),
           (stVacio.clock + 1, Fase.AMARILLO_VEHICULAR, 1),
           (stVacio.clock + 1 + 1, Fase.VERDE_PEATONAL, 1),
           (stVacio.clock + 1 + 1 + 1, Fase.AMARILLO_PEATONAL, 1)]
        ∧ (r.estado_colas.drop stVacio.estado_colas.length).map
            (fun s => (s.tiempo, s.fase)) =
          [(stVacio.clock, Fase.VERDE_VEHICULAR),
           (stVacio.clock + 1 + 1, Fase.VERDE_PEATONAL),
           (stVacio.clock + 1 + 1 + 1 + 1, Fase.AMARILLO_PEATONAL)]) := by
  rcases hEq : controlador_ciclo_fijo 1 1 1 0 4 stVacio with _ | r
  · have hS : (controlador_ciclo_fijo 1 1 1 0 4 stVacio).isSome = true := by
      with_unfolding_all rfl
    rw [hEq] at hS; simp at hS
  · simpa using C9_fases_registros_fijo 1 1 1 0 4 stVacio r hEq (by norm_num)
      (by norm_num) (by norm_num) (by norm_num [stVacio, estadoInicial])

end CrucePeatonal

namespace CrucePeatonal

theorem extensionLoop_cotas (g_max b w_max t_v warmup : ℚ) (fuelA : Nat) (hb : 0 ≤ b) :
    ∀ (fuel : Nat) (total : ℚ) (ext : Nat) (st : SimState) (r : ℚ × SimState),
      extensionLoop g_max b w_max t_v warmup fuelA fuel total ext st = some r →
      total ≤ g_max → total ≤ r.1 ∧ r.1 ≤ g_max := by
  intro fuel
  induction fuel with
  | zero => intro total ext st r h _; simp [extensionLoop] at h
  | succ n ih =>
    intro total ext st r h htot
    simp only [extensionLoop] at h
    split at h
    · split at h
      · cases h; exact ⟨le_refl _, htot⟩
      · split at h
        · cases h; exact ⟨le_refl _, htot⟩
        · split at h
          · cases h; exact ⟨le_refl _, htot⟩
          · rename_i hnmax
            push_neg at hnmax
            rw [Option.bind_eq_some] at h
            obtain ⟨st3, -, h⟩ := h
            obtain ⟨h1, h2⟩ := ih _ _ _ _ h hnmax
            exact ⟨by linarith, h2⟩
    · cases h; exact ⟨le_refl _, htot⟩

/-- C1: for every completed adaptive vehicle-green phase with configuration
satisfying g_min ≤ g_max and b > 0, the cumulative vehicle-green time
returned by fase_verde_vehicular_adaptativa lies in [g_min, g_max]: the
phase starts at g_min, only extends while adding b stays within g_max, and
every stop branch returns the current total unchanged. -/
theorem C1_verde_adaptativo_acotado (g_min g_max b w_max t_v warmup : ℚ)
    (fuelA fuelL : Nat) (st : SimState) (r : ℚ × SimState)
    (h : fase_verde_vehicular_adaptativa g_min g_max b w_max t_v warmup fuelA fuelL st = some r)
    (hgm : g_min ≤ g_max) (hb : 0 < b) :
    g_min ≤ r.1 ∧ r.1 ≤ g_max := by
  simp only [fase_verde_vehicular_adaptativa] at h
  rw [Option.bind_eq_some] at h
  obtain ⟨st2, -, h⟩ := h
  exact extensionLoop_cotas g_max b w_max t_v warmup fuelA (le_of_lt hb)
    fuelL g_min 0 st2 r h hgm

/-- Witness for C1 at a concrete input: g_min = 1, g_max = 2, b = 1, an empty
intersection; the phase completes (the extension loop stops on low vehicle
queue) and the returned cumulative green lies in [1, 2]. -/
theorem C1_verde_adaptativo_acotado_testigo :
    (fase_verde_vehicular_adaptativa 1 2 1 5 1 0 3 3 escenarioC1).elim False
      (fun r => 1 ≤ r.1 ∧ r.1 ≤ 2) := by
  rcases hEq : fase_verde_vehicular_adaptativa 1 2 1 5 1 0 3 3 escenarioC1 with _ | r
  · have hS : (fase_verde_vehicular_adaptativa 1 2 1 5 1 0 3 3 escenarioC1).isSome = true := by
      with_unfolding_all rfl
    rw [hEq] at hS; simp at hS
  · simpa using C1_verde_adaptativo_acotado 1 2 1 5 1 0 3 3 escenarioC1 r hEq
      (by norm_num) (by norm_num)

/-- C6: at every iteration of the adaptive extension loop (with the cap not
yet reached), the three stop conditions are evaluated in the strict source
order pedestrian-wait, vehicle-queue, cap: whichever holds first ends the
loop immediately with the matching FIN_EXTENSION decision and the cumulative
green unchanged — in particular, whenever the maximum pedestrian wait
observed at a check exceeds w_max, no further extension occurs in that cycle
regardless of the other two conditions — and only when none holds does the
loop extend by b and continue. -/
theorem C6_orden_condiciones (g_max b w_max t_v warmup : ℚ) (fuelA fuel : Nat)
    (total : ℚ) (ext : Nat) (st : SimState) (htot : total < g_max) :
    (obtener_espera_maxima_peatonal st.clock (colaObs st.clock st.colaP st.futP) > w_max →
      extensionLoop g_max b w_max t_v warmup fuelA (fuel + 1) total ext st =
        some (total, registrar_decision warmup st .FIN_EXTENSION .PRIORIDAD_PEATONAL))
  ∧ (¬ obtener_espera_maxima_peatonal st.clock (colaObs st.clock st.colaP st.futP) > w_max →
     (((colaObs st.clock st.colaV st.futV).length : ℚ) < t_v →
      extensionLoop g_max b w_max t_v warmup fuelA (fuel + 1) total ext st =
        some (total, registrar_decision warmup st .FIN_EXTENSION .COLA_VEHICULAR_BAJA)))
  ∧ (¬ obtener_espera_maxima_peatonal st.clock (colaObs st.clock st.colaP st.futP) > w_max →
     ¬ ((colaObs st.clock st.colaV st.futV).length : ℚ) < t_v →
     (total + b > g_max →
      extensionLoop g_max b w_max t_v warmup fuelA (fuel + 1) total ext st =
        some (total, registrar_decision warmup st .FIN_EXTENSION .MAXIMO_ALCANZADO)))
  ∧ (¬ obtener_espera_maxima_peatonal st.clock (colaObs st.clock st.colaP st.futP) > w_max →
     ¬ ((colaObs st.clock st.colaV st.futV).length : ℚ) < t_v →
     ¬ total + b > g_max →
      extensionLoop g_max b w_max t_v warmup fuelA (fuel + 1) total ext st =
        (atender_vehiculos warmup b fuelA
            (registrar_evento warmup
              (registrar_decision warmup st .EXTENSION .ALTA_DEMANDA_VEHICULAR)
              .VERDE_VEHICULAR_EXTENSION b)).bind
          (fun st3 => extensionLoop g_max b w_max t_v warmup fuelA fuel
            (total + b) (ext + 1) st3)) := by
  refine ⟨fun h1 => ?_, fun h1 h2 => ?_, fun h1 h2 h3 => ?_, fun h1 h2 h3 => ?_⟩
  · simp only [extensionLoop]; simp [htot, h1]
  · simp only [extensionLoop]; simp [htot, h1, h2]
  · simp only [extensionLoop]; simp [htot, h1, h2, h3]
  · simp only [extensionLoop]; simp [htot, h1, h2, h3]

/-- Witness for C6 at a concrete input: a pedestrian has waited 100 > 90
seconds, the vehicle queue (empty) is also below t_v and the next block would
also overrun g_max, yet the loop ends with the pedestrian-priority decision:
condition order respected and no further extension. -/
theorem C6_orden_condiciones_testigo :
    (58 : ℚ) < 60 ∧
    extensionLoop 60 5 90 5 0 2 4 58 0 escenarioC6 =
      some (58, registrar_decision 0 escenarioC6 .FIN_EXTENSION .PRIORIDAD_PEATONAL) := by
  refine ⟨by norm_num, ?_⟩
  exact (C6_orden_condiciones 60 5 90 5 0 2 3 58 0 escenarioC6 (by norm_num)).1
    (by norm_num [obtener_espera_maxima_peatonal, colaObs, llegadasHasta,
      escenarioC6, estadoInicial])

end CrucePeatonal

namespace CrucePeatonal

set_option maxHeartbeats 3200000 in
/-- Evaluation of the Scenario-B adaptive vehicle-green phase: with
g_min = 20, g_max = 60, b = 5, t_v = 5, w_max = 90, five vehicles always
queued (every draw overruns its block, so the queue is only rotated) and no
pedestrians, the phase returns cumulative green 60 in the state
escenarioBFinal. -/
theorem escenarioB_run :
    fase_verde_vehicular_adaptativa 20 60 5 90 5 0 2 12 escenarioB =
      some (60, escenarioBFinal) := by
  with_unfolding_all rfl

/-- Counterexample to C5 on the Scenario-B run itself: the extension loop
performs its eight extensions and reaches the cap 60 exactly, but ends with
no FIN_EXTENSION decision at all — in particular no decision record with
motive MAXIMO_ALCANZADO is ever emitted (that branch fires only when the
cumulative green is still below g_max while adding b would overshoot, which
cannot happen when g_max - g_min is an exact multiple of b). -/
theorem C5_contraejemplo :
    ((fase_verde_vehicular_adaptativa 20 60 5 90 5 0 2 12 escenarioB).map
       (fun p => (p.1, p.2.decisiones.map (fun d => (d.tipo, d.motivo))))) =
      some (60, List.replicate 8 (TipoDecision.EXTENSION, Motivo.ALTA_DEMANDA_VEHICULAR))
  ∧ ((fase_verde_vehicular_adaptativa 20 60 5 90 5 0 2 12 escenarioB).map
       (fun p => p.2.decisiones.filter
         (fun d => decide (d.motivo = Motivo.MAXIMO_ALCANZADO)))) = some [] := by
  rw [escenarioB_run]
  constructor
  · simp [escenarioBFinal, List.replicate]
  · simp [escenarioBFinal]

/-- C5 (amended): in the Scenario-B run the vehicle green extends in exactly
eight 5-second blocks from 20 to the cap 60 (one VERDE_VEHICULAR_INICIAL
event of 20 s and eight VERDE_VEHICULAR_EXTENSION events of 5 s, the vehicle
queue standing at 5 at each of them), with eight EXTENSION decisions; the
loop then exits because the cumulative green equals g_max, emitting no
closing FIN_EXTENSION record. -/
theorem C5_escenario_b_enmendado :
    ((fase_verde_vehicular_adaptativa 20 60 5 90 5 0 2 12 escenarioB).map
       (fun p => (p.1,
                  p.2.eventos.map (fun e => (e.fase, e.duracion, e.cola_v)),
                  p.2.decisiones.map (fun d => (d.tipo, d.motivo))))) =
      some (60,
            (Fase.VERDE_VEHICULAR_INICIAL, (20 : ℚ), 5) ::
              List.replicate 8 (Fase.VERDE_VEHICULAR_EXTENSION, (5 : ℚ), 5),
            List.replicate 8 (TipoDecision.EXTENSION, Motivo.ALTA_DEMANDA_VEHICULAR)) := by
  rw [escenarioB_run]
  simp [escenarioBFinal, List.replicate]

end CrucePeatonal

namespace CrucePeatonal

theorem llegadasDesp_de_hasta_nil (clock : ℚ) (l : List Entity)
    (h : llegadasHasta clock l = []) : llegadasDesp clock l = l := by
  cases l with
  | nil => rfl
  | cons e es =>
    by_cases he : e.tiempo_llegada ≤ clock
    · simp [llegadasHasta, he] at h
    · simp [llegadasDesp, he]

theorem atenderLoop_fcfs_aux (warmup t_fin : ℚ) (ciclo : Nat) :
    ∀ (fuel : Nat) (st r : AtState),
      atenderLoop warmup ciclo t_fin fuel st = some r →
      (∀ x ∈ st.draws, 0 ≤ x) →
      (st.cola ++ st.futuras).Pairwise
        (fun a b => a.tiempo_llegada ≤ b.tiempo_llegada) →
      (∀ s ∈ st.recs, ∀ e ∈ st.cola ++ st.futuras,
        s.tiempo_llegada ≤ e.tiempo_llegada) →
      (∀ s ∈ st.recs, s.t_ini_serv ≤ st.clock) →
      st.recs.Pairwise
        (fun s u => s.tiempo_llegada ≤ u.tiempo_llegada ∧ s.t_ini_serv ≤ u.t_ini_serv) →
      r.recs.Pairwise
        (fun s u => s.tiempo_llegada ≤ u.tiempo_llegada ∧ s.t_ini_serv ≤ u.t_ini_serv) := by
  intro fuel
  induction fuel with
  | zero => intro st r h _ _ _ _ _; simp [atenderLoop] at h
  | succ n ih =>
    intro st r h hdraws hsort hbound hstart hpw
    have hid : st.cola ++ st.futuras =
        (st.cola ++ llegadasHasta st.clock st.futuras) ++
          llegadasDesp st.clock st.futuras := by
      rw [List.append_assoc, llegadasHasta_append_desp]
    have hsort2 := hsort
    rw [hid] at hsort2
    simp only [atenderLoop] at h
    split at h
    · rename_i hlt
      split at h
      · refine ih _ _ h hdraws ?_ ?_ ?_ hpw
        · show (([] : List Entity) ++ llegadasDesp st.clock st.futuras).Pairwise _
          rw [List.nil_append]
          exact hsort2.sublist (List.sublist_append_right _ _)
        · intro s hs e he
          refine hbound s hs e ?_
          rw [hid]
          refine List.mem_append_right _ ?_
          simpa using he
        · intro s hs
          have h0 : (0 : ℚ) ≤ min 1 (t_fin - st.clock) :=
            le_min (by norm_num) (by linarith)
          have h1 := hstart s hs
          show s.t_ini_serv ≤ st.clock + min 1 (t_fin - st.clock)
          linarith
      · exact absurd h (by simp)
      · rename_i v resto t_serv ds hcola hdr
        have hvK : st.cola ++ st.futuras =
            v :: (resto ++ llegadasDesp st.clock st.futuras) := by
          rw [hid, hcola]; rfl
        have hsort3 := hsort
        rw [hvK, List.pairwise_cons] at hsort3
        obtain ⟨hvle, hKpw⟩ := hsort3
        have htpos : 0 ≤ t_serv :=
          hdraws t_serv (by rw [hdr]; exact List.mem_cons_self _ _)
        split at h
        · cases h
          exact hpw
        · rename_i hbig
          by_cases hwu : warmup ≤ st.clock + t_serv
          · rw [if_pos hwu] at h
            refine ih _ _ h ?_ hKpw ?_ ?_ ?_
            · intro x hx
              exact hdraws x (by rw [hdr]; exact List.mem_cons_of_mem _ hx)
            · intro s hs e he
              rcases List.mem_append.mp hs with hs1 | hs1
              · refine hbound s hs1 e ?_
                rw [hvK]
                exact List.mem_cons_of_mem _ he
              · simp only [List.mem_singleton] at hs1
                subst hs1
                exact hvle e he
            · intro s hs
              rcases List.mem_append.mp hs with hs1 | hs1
              · have h1 := hstart s hs1
                show s.t_ini_serv ≤ st.clock + t_serv
                linarith
              · simp only [List.mem_singleton] at hs1
                subst hs1
                show st.clock ≤ st.clock + t_serv
                linarith
            · refine List.pairwise_append.mpr ⟨hpw, by simp, ?_⟩
              intro s hs u hu
              simp only [List.mem_singleton] at hu
              subst hu
              refine ⟨?_, ?_⟩
              · refine hbound s hs v ?_
                rw [hvK]
                exact List.mem_cons_self _ _
              · exact hstart s hs
          · rw [if_neg hwu] at h
            refine ih _ _ h ?_ hKpw ?_ ?_ hpw
            · intro x hx
              exact hdraws x (by rw [hdr]; exact List.mem_cons_of_mem _ hx)
            · intro s hs e he
              refine hbound s hs e ?_
              rw [hvK]
              exact List.mem_cons_of_mem _ he
            · intro s hs
              have h1 := hstart s hs
              show s.t_ini_serv ≤ st.clock + t_serv
              linarith
    · cases h
      exact hpw

/-- C4 (amended): within a single service phase whose queue (together with
the pending arrival stream) is ordered by arrival time — which holds whenever
no entity was re-enqueued at an earlier phase boundary — the emitted service
records are FCFS: both their arrival times and their service-start times are
non-decreasing in emission order.  (The counterexample shows the claim as
stated fails for a re-enqueued entity: the overrun branch appends it to the
tail of the queue, behind later arrivals.) -/
theorem C4_fcfs_enmendado (warmup t_fin : ℚ) (ciclo fuel : Nat) (st r : AtState)
    (h : atenderLoop warmup ciclo t_fin fuel st = some r)
    (hdraws : ∀ x ∈ st.draws, 0 ≤ x)
    (hsorted : (st.cola ++ st.futuras).Pairwise
      (fun a b => a.tiempo_llegada ≤ b.tiempo_llegada))
    (hrecs : st.recs = []) :
    r.recs.Pairwise
      (fun s u => s.tiempo_llegada ≤ u.tiempo_llegada ∧ s.t_ini_serv ≤ u.t_ini_serv) := by
  refine atenderLoop_fcfs_aux warmup t_fin ciclo fuel st r h hdraws hsorted ?_ ?_ ?_
  · intro s hs; rw [hrecs] at hs; simp at hs
  · intro s hs; rw [hrecs] at hs; simp at hs
  · rw [hrecs]; exact List.Pairwise.nil

/-- Counterexample to C4: the queue [id 1 arrived at 0, id 2 arrived at 1] is
served in a phase ending at 4; the first draw (100) overruns, so entity 1 is
re-enqueued at the tail, leaving the queue [id 2, id 1].  In the next green
phase (clock 6, end 14) the service records are emitted in queue order:
id 2 (arrival 1) starts at 6, id 1 (arrival 0) starts at 7 — service starts
ordered against arrival times within one phase, violating strict FCFS for the
re-enqueued entity. -/
theorem C4_contraejemplo :
    ((atenderLoop 0 1 4 3 escenarioC4a).map
       (fun a => (a.clock, a.cola, a.draws))) =
      some (4, [({ id := 2, tiempo_llegada := 1 } : Entity),
                { id := 1, tiempo_llegada := 0 }], [1, 1])
  ∧ ((atenderLoop 0 2 14 12 escenarioC4b).map
       (fun a => a.recs.map (fun s => (s.tiempo_llegada, s.t_ini_serv)))) =
      some [((1 : ℚ), (6 : ℚ)), (0, 7)] := by
  constructor
  · with_unfolding_all rfl
  · with_unfolding_all rfl

/-- Witness for the amended C4 at a concrete input: the same two entities in
arrival order with fitting draws are served strictly FCFS. -/
theorem C4_fcfs_enmendado_testigo :
    (atenderLoop 0 1 4 9 escenarioC4w).elim False
      (fun r => r.recs.Pairwise
        (fun s u => s.tiempo_llegada ≤ u.tiempo_llegada ∧ s.t_ini_serv ≤ u.t_ini_serv)) := by
  rcases hEq : atenderLoop 0 1 4 9 escenarioC4w with _ | r
  · have hS : (atenderLoop 0 1 4 9 escenarioC4w).isSome = true := by
      with_unfolding_all rfl
    rw [hEq] at hS; simp at hS
  · simpa using C4_fcfs_enmendado 0 4 1 9 escenarioC4w r hEq
      (by norm_num [escenarioC4w]) (by simp [escenarioC4w]) rfl

end CrucePeatonal

namespace CrucePeatonal

/-- C7 (amended): in any adaptive cycle where the pedestrian queue observable
at the decision point is empty, provided t_p ≥ 1 and w_max ≥ 0, the
pedestrian phase is skipped entirely: no event (in particular no
VERDE_PEATONAL or AMARILLO_PEATONAL record) is appended by the pedestrian
branch, and (at or after warm-up) a skip decision with motive SIN_PEATONES
is appended instead.  (The counterexample shows the t_p ≥ 1 proviso is
necessary: with t_p = 0 an empty queue satisfies cola_p ≥ t_p and the
pedestrian phase is activated.) -/
theorem C7_salto_sin_peatones (g_p amarillo t_p w_max warmup : ℚ) (fuel : Nat)
    (st : SimState)
    (hvacia : colaObs st.clock st.colaP st.futP = [])
    (htp : 1 ≤ t_p) (hw : 0 ≤ w_max) :
    faseControlPeatonal g_p amarillo t_p w_max warmup fuel st =
      some (registrar_decision warmup st .SALTAR_FASE_PEATONAL .SIN_PEATONES)
  ∧ (registrar_decision warmup st .SALTAR_FASE_PEATONAL .SIN_PEATONES).eventos =
      st.eventos
  ∧ (warmup ≤ st.clock →
      (registrar_decision warmup st .SALTAR_FASE_PEATONAL .SIN_PEATONES).decisiones =
        st.decisiones ++
          [{ tiempo := st.clock, ciclo := st.ciclo
             tipo := .SALTAR_FASE_PEATONAL, motivo := .SIN_PEATONES
             cola_v := (colaObs st.clock st.colaV st.futV).length, cola_p := 0 }]) := by
  have h1 : ¬ ((0 : ℚ) ≥ t_p) := by linarith
  have h2 : ¬ ((0 : ℚ) > w_max) := by linarith
  have hdec : debe_activar_fase_peatonal t_p w_max st.clock [] =
      (false, .SIN_PEATONES) := by
    simp [debe_activar_fase_peatonal, obtener_espera_maxima_peatonal, h1, h2]
  refine ⟨?_, eventos_registrar_decision _ _ _ _, fun hwcl => ?_⟩
  · simp only [faseControlPeatonal, hvacia, hdec]
    simp
  · rw [decisiones_registrar_decision_de _ _ _ _ hwcl]
    simp [hvacia]

/-- Counterexample to C7 as stated: with threshold t_p = 0 — a spec-valid
configuration, thresholds being non-negative integers — an empty pedestrian
queue still satisfies cola_p ≥ t_p, so debe_activar_fase_peatonal activates
the phase with motive COLA_PEATONAL_ALTA and the cycle emits VERDE_PEATONAL
and AMARILLO_PEATONAL phase-change records despite the empty queue. -/
theorem C7_contraejemplo :
    debe_activar_fase_peatonal 0 90 0 [] = (true, Motivo.COLA_PEATONAL_ALTA)
  ∧ ((faseControlPeatonal 1 1 0 90 0 4 stVacio).map
       (fun s => s.eventos.map (fun e => e.fase))) =
      some [Fase.VERDE_PEATONAL, Fase.AMARILLO_PEATONAL] := by
  constructor
  · simp [debe_activar_fase_peatonal, obtener_espera_maxima_peatonal]
  · with_unfolding_all rfl

/-- Witness for the amended C7 at a concrete input: empty pedestrian queue,
t_p = 3, w_max = 90, warm-up 0 — the branch returns exactly the skip
decision and appends no event. -/
theorem C7_salto_sin_peatones_testigo :
    faseControlPeatonal 1 1 3 90 0 4 stVacio =
      some (registrar_decision 0 stVacio .SALTAR_FASE_PEATONAL .SIN_PEATONES)
  ∧ (registrar_decision 0 stVacio .SALTAR_FASE_PEATONAL .SIN_PEATONES).eventos =
      stVacio.eventos := by
  have h := C7_salto_sin_peatones 1 1 3 90 0 4 stVacio
    (by simp [colaObs, llegadasHasta, stVacio, estadoInicial]) (by norm_num) (by norm_num)
  exact ⟨h.1, h.2.1⟩

/-- C8: the constructors perform no validation whatsoever.
SemaforoAdaptativo.__init__ accepts g_min = 30 > 20 = g_max and stores both
unchanged (no error, no clamping), and GeneradorLlegadas.__init__ accepts the
non-positive arrival rate -1 and stores it unchanged; both return normally
and the simulation would proceed, where the claim (and spec section 7)
requires a descriptive configuration error at construction time. -/
theorem C8_constructores_sin_validacion :
    (semaforoAdaptativoInit 30 20 15 (1/2) 1 5 3 5 90 3 0).g_min = 30
  ∧ (semaforoAdaptativoInit 30 20 15 (1/2) 1 5 3 5 90 3 0).g_max = 20
  ∧ (semaforoAdaptativoInit 30 20 15 (1/2) 1 5 3 5 90 3 0).ciclo_numero = 0
  ∧ (generadorLlegadasInit (-1) (1/10) 0).lambda_v = -1 := ⟨rfl, rfl, rfl, rfl⟩

/-- C3: both simulation drivers are pure functions of the seed and the
configuration — every random draw comes from the single seeded generator
state threaded deterministically through arrival generation and service
sampling — so two runs with identical (seed, config) produce identical
record sequences (arrival records, service records, phase-change records,
decision records and queue snapshots alike). -/
theorem C3_determinismo (cfg cfg2 : Config) (s s2 : Nat)
    (nLleg nDraws ciclos fuel fuelA fuelL : Nat)
    (hs : s = s2) (hc : cfg = cfg2) :
    simularSemaforoFijo cfg s nLleg nDraws ciclos fuel =
      simularSemaforoFijo cfg2 s2 nLleg nDraws ciclos fuel
  ∧ simularSemaforoAdaptativo cfg s nLleg nDraws ciclos fuelA fuelL =
      simularSemaforoAdaptativo cfg2 s2 nLleg nDraws ciclos fuelA fuelL := by
  subst hs; subst hc; exact ⟨rfl, rfl⟩

/-- Witness for C3 at a concrete input: the default config.py parameters and
seed 42. -/
theorem C3_determinismo_testigo :
    simularSemaforoFijo cfgBase 42 5 5 2 100 =
      simularSemaforoFijo cfgBase 42 5 5 2 100
  ∧ simularSemaforoAdaptativo cfgBase 42 5 5 2 100 12 =
      simularSemaforoAdaptativo cfgBase 42 5 5 2 100 12 :=
  C3_determinismo cfgBase cfgBase 42 42 5 5 2 100 100 12 rfl rfl

end CrucePeatonal

namespace CrucePeatonal

/-- Supporting fact for the pedestrian-override part of the extension loop:
for a fixed set of queued pedestrians the maximum wait only grows as the
clock advances.  Pedestrians are never removed during the vehicle-green
phase (atender_vehiculos touches only the vehicle queue), so between two
checks of the extension loop the maximum wait cannot decrease: once it
exceeds w_max it still exceeds w_max at the next check, where the loop
stops. -/
theorem obtener_espera_maxima_peatonal_mono (c c2 : ℚ) (l : List Entity)
    (h : c ≤ c2) :
    obtener_espera_maxima_peatonal c l ≤ obtener_espera_maxima_peatonal c2 l := by
  cases l with
  | nil => simp [obtener_espera_maxima_peatonal]
  | cons p ps =>
    simp only [obtener_espera_maxima_peatonal]
    have hgen : ∀ (xs : List Entity) (a a2 : ℚ), a ≤ a2 →
        (xs.map (fun q => c - q.tiempo_llegada)).foldl max a ≤
          (xs.map (fun q => c2 - q.tiempo_llegada)).foldl max a2 := by
      intro xs
      induction xs with
      | nil => intro a a2 ha; simpa using ha
      | cons x xs ih =>
        intro a a2 ha
        simp only [List.map_cons, List.foldl_cons]
        exact ih _ _ (max_le_max ha (by linarith))
    exact hgen ps _ _ (by linarith)

/-- Supporting fact for the pedestrian-override: new pedestrian arrivals
appended to a non-empty queue can only raise the maximum wait, never lower
it. -/
theorem obtener_espera_maxima_peatonal_append (c : ℚ) (p : Entity)
    (ps extra : List Entity) :
    obtener_espera_maxima_peatonal c (p :: ps) ≤
      obtener_espera_maxima_peatonal c (p :: (ps ++ extra)) := by
  simp only [obtener_espera_maxima_peatonal, List.map_append, List.foldl_append]
  have hgen : ∀ (xs : List ℚ) (a : ℚ), a ≤ xs.foldl max a := by
    intro xs
    induction xs with
    | nil => intro a; simp
    | cons x xs ih =>
      intro a
      simp only [List.foldl_cons]
      exact le_trans (le_max_left a x) (ih _)
  exact hgen _ _

end CrucePeatonal
